import Mathlib

/-!
Verification of the `meowstars/colorize` repository, whose visible source is
the single packaging manifest `setup.py`.  The manifest is embedded shallowly:
evaluating `setup.py` reads the sidecar files `VERSION` and `README` from the
working directory (raising if either is absent) and then calls
`distutils.core.setup` with a fixed set of keyword arguments.
-/

namespace Colorize

/-- A working directory: maps a file name to its contents when the file exists. -/
def FileSystem := String → Option String

/-- The keyword arguments that `setup.py` passes to `distutils.core.setup`
(lines 5-18 of `setup.py`). -/
structure SetupArgs where
  name : String
  description : String
  author : String
  author_email : String
  version : String
  install_requires : List String
  packages : List String
  license : String
  long_description : String
  scripts : List String
deriving DecidableEq

/-- Evaluation of `setup.py` over a working directory.  Python evaluates the
keyword arguments eagerly and in order, so `open('VERSION').read()` (line 10)
runs first, then `open('README').read()` (line 14), both before `setup`
itself; a missing file raises `FileNotFoundError` and no metadata is built.
All other arguments are literals taken verbatim from lines 6-17. -/
def evalSetupPy (fs : FileSystem) : Except String SetupArgs :=
  match fs "VERSION" with
  | none => Except.error "FileNotFoundError: VERSION"
  | some versionContent =>
    match fs "README" with
    | none => Except.error "FileNotFoundError: README"
    | some readmeContent =>
      Except.ok
        { name := "Colorize"
          description := "Palette manager for term apps."
          author := "Yann \x27Meow\x27 Bordenave"
          author_email := "meow@meo.wf"
          version := versionContent
          install_requires := ["PyYAML", "jinja2", "pillow"]
          packages := []
          license := "zlib"
          long_description := readmeContent
          scripts := ["bin/colorize"] }

/-- The module that `setup.py` imports `setup` from (line 3 of `setup.py`). -/
def colorizeSetupBackend : String := "distutils.core"

/-- The keyword names used in the `setup(...)` call, in source order
(lines 6-15 of `setup.py`). -/
def colorizeSetupKeywords : List String :=
  ["name", "description", "author", "author_email", "version",
   "install_requires", "packages", "license", "long_description", "scripts"]

/-- Keywords handled by `distutils.dist.DistributionMetadata` (CPython
`distutils/dist.py`, `_METHOD_BASENAMES`): a `setup` keyword naming one of
these is stored as distribution metadata. -/
def distutilsMetadataKeywords : List String :=
  ["name", "version", "author", "author_email", "maintainer",
   "maintainer_email", "url", "license", "description", "long_description",
   "keywords", "platforms", "fullname", "contact", "contact_email",
   "classifiers", "download_url", "provides", "requires", "obsoletes"]

/-- Instance attributes of `distutils.dist.Distribution` that may be set via
`setup` keywords (CPython `distutils/dist.py`, `Distribution.__init__`). -/
def distutilsDistributionKeywords : List String :=
  ["verbose", "dry_run", "help", "cmdclass", "command_packages",
   "script_name", "script_args", "command_options", "packages",
   "package_data", "package_dir", "py_modules", "libraries", "headers",
   "ext_modules", "ext_package", "include_dirs", "extra_path", "scripts",
   "data_files", "password", "command_obj", "have_run"]

/-- Whether `distutils.dist.Distribution.__init__` recognizes a `setup`
keyword: it must name either a metadata field or a `Distribution` attribute. -/
def distutilsRecognizes (kw : String) : Bool :=
  distutilsMetadataKeywords.contains kw || distutilsDistributionKeywords.contains kw

/-- The keywords for which `Distribution.__init__` emits an
`Unknown distribution option` warning and otherwise ignores the value. -/
def distutilsUnknownOptions (kws : List String) : List String :=
  kws.filter (fun kw => !distutilsRecognizes kw)

/-- The importable Python packages that installing the distribution provides:
`distutils` command `build_py` installs exactly the packages listed in the
`packages` keyword (`setup.py` passes no `py_modules`). -/
def installedPythonPackages (a : SetupArgs) : List String :=
  a.packages

/-- The characters of a path's base name: everything after the last slash. -/
def baseNameAux : List Char → List Char → List Char
  | [], acc => acc.reverse
  | c :: rest, acc =>
    if c = '/' then baseNameAux rest [] else baseNameAux rest (c :: acc)

/-- The command name under which `distutils` command `install_scripts`
installs a script: the file's base name. -/
def scriptCommandName (path : String) : String :=
  String.mk (baseNameAux path.toList [])

/-- The CLI commands provided by installing the distribution. -/
def installedCommands (a : SetupArgs) : List String :=
  a.scripts.map scriptCommandName

/-- The 18 lines of `setup.py`, verbatim (apostrophes written `\x27`). -/
def setupPyLines : List String :=
  ["#!/usr/bin/env python3",
   "",
   "from distutils.core import setup",
   "",
   "setup(",
   "    name=\x27Colorize\x27,",
   "    description=\x27Palette manager for term apps.\x27,",
   "    author=\"Yann \x27Meow\x27 Bordenave\",",
   "    author_email=\x27meow@meo.wf\x27,",
   "    version=open(\x27VERSION\x27).read(),",
   "    install_requires=[\x27PyYAML\x27, \x27jinja2\x27, \x27pillow\x27],",
   "    packages=[],",
   "    license=\x27zlib\x27,",
   "    long_description=open(\x27README\x27).read(),",
   "    scripts=[",
   "        \x27bin/colorize\x27,",
   "    ],",
   ")"]

/-- The source files present in the supplied repository material, with their
contents as line lists. -/
def repositorySourceFiles : List (String × List String) :=
  [("setup.py", setupPyLines)]

/-- A concrete working directory holding both sidecar files. -/
def fsWith (v r : String) : FileSystem :=
  fun fileName =>
    if fileName = "VERSION" then some v
    else if fileName = "README" then some r
    else none

/-- A concrete working directory holding neither sidecar file. -/
def emptyFS : FileSystem := fun _ => none

/-- A concrete working directory holding `VERSION` but not `README`. -/
def versionOnlyFS : FileSystem :=
  fun fileName => if fileName = "VERSION" then some "0.1" else none

/-- Inverting a successful evaluation of `setup.py`: both sidecar files were
present and every field of the result is determined. -/
theorem evalSetupPy_ok_elim {fs : FileSystem} {a : SetupArgs}
    (h : evalSetupPy fs = Except.ok a) :
    ∃ v r, fs "VERSION" = some v ∧ fs "README" = some r ∧
      a = { name := "Colorize"
            description := "Palette manager for term apps."
            author := "Yann \x27Meow\x27 Bordenave"
            author_email := "meow@meo.wf"
            version := v
            install_requires := ["PyYAML", "jinja2", "pillow"]
            packages := []
            license := "zlib"
            long_description := r
            scripts := ["bin/colorize"] } := by
  unfold evalSetupPy at h
  split at h
  · cases h
  · split at h
    · cases h
    · cases h
      exact ⟨_, _, by assumption, by assumption, rfl⟩

/-- Evaluating `setup.py` in a directory holding both sidecar files succeeds,
with the `VERSION` and `README` contents threaded into the metadata. -/
theorem evalSetupPy_fsWith (v r : String) :
    evalSetupPy (fsWith v r) = Except.ok
      { name := "Colorize"
        description := "Palette manager for term apps."
        author := "Yann \x27Meow\x27 Bordenave"
        author_email := "meow@meo.wf"
        version := v
        install_requires := ["PyYAML", "jinja2", "pillow"]
        packages := []
        license := "zlib"
        long_description := r
        scripts := ["bin/colorize"] } := rfl

/-- C1: the manifest passes exactly one entry in `scripts`, the file
`bin/colorize`, so installation provides the single CLI command `colorize`
and no other executable. -/
theorem scripts_single_colorize (fs : FileSystem) (a : SetupArgs)
    (h : evalSetupPy fs = Except.ok a) :
    a.scripts = ["bin/colorize"] ∧ a.scripts.length = 1 ∧
      installedCommands a = ["colorize"] := by
  obtain ⟨v, r, _, _, ha⟩ := evalSetupPy_ok_elim h
  subst ha
  exact ⟨rfl, rfl, rfl⟩

/-- Witness for C1 at a concrete working directory. -/
theorem scripts_single_colorize_witness :
    ∃ a : SetupArgs, evalSetupPy (fsWith "1.0" "readme") = Except.ok a ∧
      a.scripts = ["bin/colorize"] ∧ a.scripts.length = 1 ∧
      installedCommands a = ["colorize"] :=
  ⟨_, rfl, scripts_single_colorize (fsWith "1.0" "readme") _ rfl⟩

/-- C2: the version string is obtained by reading the sidecar `VERSION` file
at evaluation time, not hard-coded: any successful evaluation reports the
file contents as the version, and two directories with different `VERSION`
contents yield different version strings. -/
theorem version_from_sidecar :
    (∀ (fs : FileSystem) (v r : String),
        fs "VERSION" = some v → fs "README" = some r →
        ∃ a, evalSetupPy fs = Except.ok a ∧ a.version = v) ∧
    (∃ (fs₁ fs₂ : FileSystem) (a₁ a₂ : SetupArgs),
        evalSetupPy fs₁ = Except.ok a₁ ∧ evalSetupPy fs₂ = Except.ok a₂ ∧
        a₁.version ≠ a₂.version) := by
  constructor
  · intro fs v r hv hr
    refine ⟨{ name := "Colorize"
              description := "Palette manager for term apps."
              author := "Yann \x27Meow\x27 Bordenave"
              author_email := "meow@meo.wf"
              version := v
              install_requires := ["PyYAML", "jinja2", "pillow"]
              packages := []
              license := "zlib"
              long_description := r
              scripts := ["bin/colorize"] }, ?_, rfl⟩
    unfold evalSetupPy
    rw [hv, hr]
  · refine ⟨fsWith "1.0" "x", fsWith "2.0" "x", _, _,
      evalSetupPy_fsWith "1.0" "x", evalSetupPy_fsWith "2.0" "x", ?_⟩
    decide

/-- Witness for C2 at a concrete working directory. -/
theorem version_from_sidecar_witness :
    ∃ a, evalSetupPy (fsWith "3.1.4" "readme") = Except.ok a ∧
      a.version = "3.1.4" :=
  version_from_sidecar.1 (fsWith "3.1.4" "readme") "3.1.4" "readme"
    (by decide) (by decide)

/-- C3: the manifest declares exactly the three runtime dependencies
`PyYAML`, `jinja2` and `pillow` in `install_requires`, and no others. -/
theorem declared_dependencies_exactly_three (fs : FileSystem) (a : SetupArgs)
    (h : evalSetupPy fs = Except.ok a) :
    a.install_requires = ["PyYAML", "jinja2", "pillow"] ∧
      a.install_requires.length = 3 := by
  obtain ⟨v, r, _, _, ha⟩ := evalSetupPy_ok_elim h
  subst ha
  exact ⟨rfl, rfl⟩

/-- Witness for C3 at a concrete working directory. -/
theorem declared_dependencies_exactly_three_witness :
    ∃ a : SetupArgs, evalSetupPy (fsWith "1.0" "readme") = Except.ok a ∧
      a.install_requires = ["PyYAML", "jinja2", "pillow"] ∧
      a.install_requires.length = 3 :=
  ⟨_, rfl, declared_dependencies_exactly_three (fsWith "1.0" "readme") _ rfl⟩

/-- C4: the manifest imports `setup` from `distutils.core`, whose
`Distribution` does not recognize the `install_requires` keyword: of all the
keywords `setup.py` passes it is the only unknown option, so the three
declared dependencies are merely warned about, never enforced or installed. -/
theorem install_requires_unknown_to_distutils :
    colorizeSetupBackend = "distutils.core" ∧
    "install_requires" ∈ colorizeSetupKeywords ∧
    distutilsRecognizes "install_requires" = false ∧
    distutilsUnknownOptions colorizeSetupKeywords = ["install_requires"] := by
  decide

/-- C5: evaluating `setup.py` reads both `VERSION` and `README` before
`setup` runs; if either file is absent the evaluation raises
`FileNotFoundError` and produces no distribution metadata. -/
theorem eager_sidecar_reads_fail (fs : FileSystem) :
    (fs "VERSION" = none →
        evalSetupPy fs = Except.error "FileNotFoundError: VERSION") ∧
    (∀ v, fs "VERSION" = some v → fs "README" = none →
        evalSetupPy fs = Except.error "FileNotFoundError: README") ∧
    ((fs "VERSION" = none ∨ fs "README" = none) →
        ∀ a, evalSetupPy fs ≠ Except.ok a) := by
  refine ⟨?_, ?_, ?_⟩
  · intro hv
    unfold evalSetupPy
    rw [hv]
  · intro v hv hr
    unfold evalSetupPy
    rw [hv, hr]
  · intro hmiss a hok
    obtain ⟨v, r, hv, hr, _⟩ := evalSetupPy_ok_elim hok
    cases hmiss with
    | inl h => rw [h] at hv; cases hv
    | inr h => rw [h] at hr; cases hr

/-- Witness for C5 at concrete working directories missing each sidecar. -/
theorem eager_sidecar_reads_fail_witness :
    evalSetupPy emptyFS = Except.error "FileNotFoundError: VERSION" ∧
    evalSetupPy versionOnlyFS = Except.error "FileNotFoundError: README" :=
  ⟨(eager_sidecar_reads_fail emptyFS).1 rfl,
   (eager_sidecar_reads_fail versionOnlyFS).2.1 "0.1" rfl rfl⟩

/-- C6: the declared license is the zlib license. -/
theorem declared_license_zlib (fs : FileSystem) (a : SetupArgs)
    (h : evalSetupPy fs = Except.ok a) : a.license = "zlib" := by
  obtain ⟨v, r, _, _, ha⟩ := evalSetupPy_ok_elim h
  subst ha
  rfl

/-- Witness for C6 at a concrete working directory. -/
theorem declared_license_zlib_witness :
    ∃ a : SetupArgs, evalSetupPy (fsWith "1.0" "readme") = Except.ok a ∧
      a.license = "zlib" :=
  ⟨_, rfl, declared_license_zlib (fsWith "1.0" "readme") _ rfl⟩

/-- C7: the manifest names the project `Colorize` and its description
identifies it as a palette manager for terminal applications. -/
theorem project_name_and_description (fs : FileSystem) (a : SetupArgs)
    (h : evalSetupPy fs = Except.ok a) :
    a.name = "Colorize" ∧
      a.description = "Palette manager for term apps." := by
  obtain ⟨v, r, _, _, ha⟩ := evalSetupPy_ok_elim h
  subst ha
  exact ⟨rfl, rfl⟩

/-- Witness for C7 at a concrete working directory. -/
theorem project_name_and_description_witness :
    ∃ a : SetupArgs, evalSetupPy (fsWith "1.0" "readme") = Except.ok a ∧
      a.name = "Colorize" ∧
      a.description = "Palette manager for term apps." :=
  ⟨_, rfl, project_name_and_description (fsWith "1.0" "readme") _ rfl⟩

/-- C8: the entire visible repository is the single file `setup.py`, whose
source is exactly 18 lines of packaging metadata. -/
theorem repository_is_18_line_manifest :
    repositorySourceFiles.map Prod.fst = ["setup.py"] ∧
    setupPyLines.length = 18 := by
  exact ⟨rfl, rfl⟩

/-- C9: the supplied material holds no implementation source beyond the
manifest, and the manifest's `packages` list is empty, so installing the
distribution installs no importable Python package. -/
theorem no_importable_packages (fs : FileSystem) (a : SetupArgs)
    (h : evalSetupPy fs = Except.ok a) :
    a.packages = [] ∧ installedPythonPackages a = [] ∧
      repositorySourceFiles.map Prod.fst = ["setup.py"] := by
  obtain ⟨v, r, _, _, ha⟩ := evalSetupPy_ok_elim h
  subst ha
  exact ⟨rfl, rfl, rfl⟩

/-- Witness for C9 at a concrete working directory. -/
theorem no_importable_packages_witness :
    ∃ a : SetupArgs, evalSetupPy (fsWith "1.0" "readme") = Except.ok a ∧
      a.packages = [] ∧ installedPythonPackages a = [] ∧
      repositorySourceFiles.map Prod.fst = ["setup.py"] :=
  ⟨_, rfl, no_importable_packages (fsWith "1.0" "readme") _ rfl⟩

/-- C10: the version passed to `setup` is the raw, complete content of the
`VERSION` file, with no normalization of whitespace or trailing newlines. -/
theorem version_verbatim (fs : FileSystem) (v : String) (a : SetupArgs)
    (hv : fs "VERSION" = some v) (h : evalSetupPy fs = Except.ok a) :
    a.version = v := by
  obtain ⟨v', r, hv', _, ha⟩ := evalSetupPy_ok_elim h
  subst ha
  rw [hv] at hv'
  cases hv'
  rfl

/-- Witness for C10: a trailing newline in `VERSION` survives verbatim into
the declared version string. -/
theorem version_verbatim_witness :
    (evalSetupPy (fsWith "1.0.3\n" "readme") = Except.ok
      { name := "Colorize"
        description := "Palette manager for term apps."
        author := "Yann \x27Meow\x27 Bordenave"
        author_email := "meow@meo.wf"
        version := "1.0.3\n"
        install_requires := ["PyYAML", "jinja2", "pillow"]
        packages := []
        license := "zlib"
        long_description := "readme"
        scripts := ["bin/colorize"] }) ∧
    ({ name := "Colorize"
       description := "Palette manager for term apps."
       author := "Yann \x27Meow\x27 Bordenave"
       author_email := "meow@meo.wf"
       version := "1.0.3\n"
       install_requires := ["PyYAML", "jinja2", "pillow"]
       packages := []
       license := "zlib"
       long_description := "readme"
       scripts := ["bin/colorize"] } : SetupArgs).version = "1.0.3\n" :=
  ⟨rfl, version_verbatim (fsWith "1.0.3\n" "readme") "1.0.3\n" _ rfl rfl⟩

end Colorize
